import Mathlib

/-!
Shallow embedding of the ethical stock screener: the methodology registry
and sector classification tables (src/utils/constants.ts), the TypeScript
screening engine (class EthicalStockScreener) and the older untyped
JavaScript engine (namespace `JS` below).

Modelling conventions: JavaScript numbers are rationals, extended with
Infinity (`JNum`) where the code can produce it; optional fields are
`Option`; thrown errors are `Except String`; object-literal records whose
keys are inserted in a fixed program order become association lists in
that order.  Methodology metadata fields that no screening logic ever
reads (description, region, authority, year_established, last_updated,
and the never-read `custom_rules` criteria slot) are omitted from the
records.
-/

namespace Screener

/-- JavaScript numeric values arising in the engine: a finite rational or Infinity. -/
inductive JNum where
  | fin (q : ℚ)
  | inf
  deriving DecidableEq

/-- `a <= b` on JavaScript numbers (no NaN arises on the modelled paths). -/
def JNum.le : JNum → JNum → Bool
  | .fin a, .fin b => decide (a ≤ b)
  | .fin _, .inf => true
  | .inf, .inf => true
  | .inf, .fin _ => false

/-- JavaScript truthiness of a number: 0 is falsy, everything else truthy. -/
def JNum.truthy : JNum → Bool
  | .fin q => decide (q ≠ 0)
  | .inf => true

/-- JavaScript `x || d` on an optional number with a finite default:
`undefined` and `0` both fall through to the default. -/
def jsOrQ (v : Option ℚ) (d : ℚ) : ℚ :=
  match v with
  | none => d
  | some x => if x = 0 then d else x

/-- JavaScript `x || Infinity` on an optional number. -/
def jsOrInf (v : Option ℚ) : JNum :=
  match v with
  | none => .inf
  | some x => if x = 0 then .inf else .fin x

/-- JavaScript `a || b` on optional numbers (used when composing recommendation text). -/
def jsNumOr (a b : Option JNum) : Option JNum :=
  match a with
  | some v => if v.truthy then some v else b
  | none => b

/-- Decimal-free rendering of a rational (JavaScript number formatting is
abstracted; no claim inspects these strings). -/
def ratStr (q : ℚ) : String :=
  if q.den = 1 then toString q.num else toString q.num ++ "/" ++ toString q.den

/-- Rendering of an optional JavaScript number inside a template string. -/
def numToStr : Option JNum → String
  | none => "undefined"
  | some (.fin q) => ratStr q
  | some .inf => "Infinity"

/-- Controversy severity levels (src/unnamed/part_002, StockControversies). -/
inductive Severity where
  | low
  | medium
  | high
  | severe
  deriving DecidableEq

/-- interface ScreeningCriteria (src/utils/constants.ts): sparse thresholds
and flags, absence meaning "this rule is not evaluated". -/
structure ScreeningCriteria where
  cash_limit : Option ℚ := none
  debt_limit : Option ℚ := none
  receivables_limit : Option ℚ := none
  impermissible_income_limit : Option ℚ := none
  use_total_assets : Option Bool := none
  min_esg_score : Option ℚ := none
  max_esg_risk : Option ℚ := none
  max_carbon_intensity : Option ℚ := none
  min_board_diversity : Option ℚ := none
  min_governance_score : Option ℚ := none
  exclude_controversies : Option Bool := none
  exclude_severe_controversies : Option Bool := none
  exclude_sin_stocks : Option Bool := none
  min_community_impact_score : Option ℚ := none
  support_human_dignity : Option Bool := none
  kosher_food_only : Option Bool := none
  sabbath_observant : Option Bool := none
  exclude_mixed_textiles : Option Bool := none
  deriving DecidableEq

/-- interface Methodology (src/utils/constants.ts), logic-relevant fields.
A missing `preferred_sectors` is modelled as `[]`, which every use site
makes behaviourally identical (the engine destructures with default `[]`). -/
structure Methodology where
  name : String
  type : String
  criteria : ScreeningCriteria
  prohibited_sectors : List String
  preferred_sectors : List String := []
  deriving DecidableEq

/-- interface StockFinancials (src/unnamed/part_002). -/
structure StockFinancials where
  cash_ratio : Option ℚ := none
  debt_ratio : Option ℚ := none
  receivables_ratio : Option ℚ := none
  impermissible_income : Option ℚ := none
  esg_score : Option ℚ := none
  carbon_intensity : Option ℚ := none
  board_diversity : Option ℚ := none
  governance_score : Option ℚ := none
  esg_risk : Option ℚ := none
  total_assets : Option ℚ := none
  market_cap : Option ℚ := none
  deriving DecidableEq

/-- interface StockControversies (src/unnamed/part_002). -/
structure StockControversies where
  severity : Option Severity := none
  categories : List String := []
  description : Option String := none
  deriving DecidableEq

/-- interface Stock (src/unnamed/part_002). -/
structure Stock where
  symbol : String
  name : String
  sector : String
  financials : StockFinancials
  controversies : Option StockControversies := none
  deriving DecidableEq

/-- SECTOR_CLASSIFICATIONS (src/utils/constants.ts): sector tag to the list
of literal sector-name strings counted as its members, in declaration order. -/
def SECTOR_CLASSIFICATIONS : List (String × List String) :=
  [("financial_services", ["Banks", "Insurance", "Financial Services", "Credit Services", "Investment Banking"]),
   ("banks", ["Commercial Banks", "Investment Banks", "Regional Banks", "Savings Banks"]),
   ("insurance", ["Life Insurance", "Property Insurance", "Health Insurance", "Reinsurance"]),
   ("alcohol", ["Alcoholic Beverages", "Distillers & Vintners", "Brewers", "Wine & Spirits"]),
   ("tobacco", ["Tobacco", "Cigarettes", "E-cigarettes", "Tobacco Products"]),
   ("pork", ["Pork Processing", "Pork Products", "Pig Farming"]),
   ("gambling", ["Casinos & Gaming", "Gambling", "Lottery", "Sports Betting", "Online Gaming"]),
   ("adult_entertainment", ["Adult Entertainment", "Strip Clubs", "Adult Content"]),
   ("defense", ["Defense", "Aerospace & Defense", "Weapons", "Military Equipment"]),
   ("kosher_food", ["Kosher Food Products", "Kosher Restaurants", "Kosher Certification"]),
   ("non_kosher_food", ["Pork Products", "Shellfish", "Mixed Meat & Dairy"]),
   ("shellfish", ["Shellfish Processing", "Crab", "Lobster", "Shrimp"]),
   ("clean_energy", ["Solar Energy", "Wind Energy", "Hydroelectric", "Geothermal", "Clean Technology"]),
   ("fossil_fuels", ["Oil & Gas", "Coal", "Oil Refining", "Natural Gas"]),
   ("thermal_coal", ["Coal Mining", "Coal Power", "Thermal Coal"]),
   ("weapons", ["Weapons Manufacturing", "Military Contractors", "Defense Systems"]),
   ("healthcare", ["Pharmaceuticals", "Medical Devices", "Healthcare Services", "Biotechnology"]),
   ("education", ["Education Services", "Online Education", "Educational Technology"]),
   ("community_development", ["Community Banks", "Affordable Housing", "Microfinance"]),
   ("mixed_textiles", ["Mixed Fiber Clothing", "Linen-Wool Blends"]),
   ("abortion_services", ["Abortion Clinics", "Abortion Pharmaceuticals"]),
   ("contraceptives", ["Contraceptive Manufacturing", "Birth Control"]),
   ("predatory_lending", ["Payday Loans", "Title Loans", "High-Interest Lending"]),
   ("technology", ["Software", "Hardware", "Internet Services", "Cloud Computing"]),
   ("sustainable_tech", ["Clean Technology", "Energy Efficiency", "Sustainable Materials"])]

/-- getSectorClassification (src/utils/constants.ts):
`SECTOR_CLASSIFICATIONS[sectorKey] || []`. -/
def getSectorClassification (sectorKey : String) : List String :=
  (SECTOR_CLASSIFICATIONS.lookup sectorKey).getD []

/-- ALL_METHODOLOGIES.AAOIFI (src/utils/constants.ts). -/
def AAOIFI : Methodology :=
  { name := "AAOIFI", type := "islamic",
    criteria := { cash_limit := some 30, debt_limit := some 30, receivables_limit := some 67,
                  impermissible_income_limit := some 5, use_total_assets := some false },
    prohibited_sectors := ["financial_services", "banks", "insurance", "alcohol", "tobacco",
                           "gambling", "adult_entertainment", "defense", "pork", "interest_based_activities"] }

/-- ALL_METHODOLOGIES.DJIM (src/utils/constants.ts). -/
def DJIM : Methodology :=
  { name := "Dow Jones Islamic Market", type := "islamic",
    criteria := { cash_limit := some 33, debt_limit := some 33, receivables_limit := some 33,
                  impermissible_income_limit := some 5, use_total_assets := some false },
    prohibited_sectors := ["financial_services", "banks", "insurance", "alcohol", "tobacco",
                           "gambling", "adult_entertainment", "defense", "pork"] }

/-- ALL_METHODOLOGIES.FTSE (src/utils/constants.ts). -/
def FTSE : Methodology :=
  { name := "FTSE Shariah", type := "islamic",
    criteria := { cash_limit := some 33, debt_limit := some 33, receivables_limit := some 50,
                  impermissible_income_limit := some 5, use_total_assets := some true },
    prohibited_sectors := ["financial_services", "banks", "insurance", "alcohol", "tobacco",
                           "gambling", "adult_entertainment", "defense", "pork"] }

/-- ALL_METHODOLOGIES.MSCI (src/utils/constants.ts). -/
def MSCI : Methodology :=
  { name := "MSCI Islamic", type := "islamic",
    criteria := { cash_limit := some 33.33, debt_limit := some 33.33, receivables_limit := some 33.33,
                  impermissible_income_limit := some 5, use_total_assets := some true },
    prohibited_sectors := ["financial_services", "banks", "insurance", "alcohol", "tobacco",
                           "gambling", "adult_entertainment", "defense", "pork"] }

/-- ALL_METHODOLOGIES.MSCI_M_SERIES (src/utils/constants.ts). -/
def MSCI_M_SERIES : Methodology :=
  { name := "MSCI Islamic M-Series", type := "islamic",
    criteria := { cash_limit := some 33.33, debt_limit := some 33.33, receivables_limit := some 49,
                  impermissible_income_limit := some 5, use_total_assets := some false },
    prohibited_sectors := ["financial_services", "banks", "insurance", "alcohol", "tobacco",
                           "gambling", "adult_entertainment", "defense", "pork"] }

/-- ALL_METHODOLOGIES.SP500 (src/utils/constants.ts). -/
def SP500 : Methodology :=
  { name := "S&P 500 Shariah", type := "islamic",
    criteria := { cash_limit := some 33, debt_limit := some 33, receivables_limit := some 49,
                  impermissible_income_limit := some 5, use_total_assets := some false },
    prohibited_sectors := ["financial_services", "banks", "insurance", "alcohol", "tobacco",
                           "gambling", "adult_entertainment", "defense", "pork"] }

/-- ALL_METHODOLOGIES.INDONESIA (src/utils/constants.ts). -/
def INDONESIA : Methodology :=
  { name := "Indonesia Islamic", type := "islamic",
    criteria := { debt_limit := some 45, impermissible_income_limit := some 10,
                  use_total_assets := some true },
    prohibited_sectors := ["financial_services", "banks", "insurance", "alcohol", "tobacco",
                           "gambling", "adult_entertainment", "defense", "pork"] }

/-- ALL_METHODOLOGIES.MALAYSIA (src/utils/constants.ts). -/
def MALAYSIA : Methodology :=
  { name := "Malaysia SC Shariah", type := "islamic",
    criteria := { cash_limit := some 33, debt_limit := some 33, impermissible_income_limit := some 25,
                  use_total_assets := some true },
    prohibited_sectors := ["financial_services", "banks", "insurance", "alcohol", "tobacco",
                           "gambling", "adult_entertainment", "defense", "pork"],
    preferred_sectors := ["islamic_banking", "halal_food", "technology", "healthcare"] }

/-- ALL_METHODOLOGIES.MSCI_ESG (src/utils/constants.ts). -/
def MSCI_ESG : Methodology :=
  { name := "MSCI ESG Ratings", type := "esg",
    criteria := { min_esg_score := some 7.0, max_carbon_intensity := some 100,
                  min_board_diversity := some 30, exclude_controversies := some true },
    prohibited_sectors := ["tobacco", "weapons", "thermal_coal", "oil_sands", "arctic_drilling"],
    preferred_sectors := ["clean_energy", "water_tech", "sustainable_agriculture", "green_building"] }

/-- ALL_METHODOLOGIES.SUSTAINALYTICS (src/utils/constants.ts). -/
def SUSTAINALYTICS : Methodology :=
  { name := "Sustainalytics ESG Risk", type := "esg",
    criteria := { max_esg_risk := some 25, min_governance_score := some 60,
                  exclude_severe_controversies := some true },
    prohibited_sectors := ["tobacco", "weapons", "gambling", "adult_entertainment", "predatory_lending"],
    preferred_sectors := ["renewable_energy", "healthcare", "education", "sustainable_tech"] }

/-- ALL_METHODOLOGIES.FTSE4GOOD (src/utils/constants.ts). -/
def FTSE4GOOD : Methodology :=
  { name := "FTSE4Good", type := "esg",
    criteria := { min_esg_score := some 6.5, exclude_controversies := some true,
                  min_board_diversity := some 25 },
    prohibited_sectors := ["tobacco", "weapons", "nuclear_power", "adult_entertainment"],
    preferred_sectors := ["clean_technology", "healthcare", "education"] }

/-- ALL_METHODOLOGIES.SRI (src/utils/constants.ts). -/
def SRI : Methodology :=
  { name := "Socially Responsible Investing", type := "christian",
    criteria := { exclude_sin_stocks := some true, min_community_impact_score := some 6.0,
                  support_human_dignity := some true },
    prohibited_sectors := ["alcohol", "tobacco", "gambling", "adult_entertainment", "abortion_services",
                           "predatory_lending", "private_prisons"],
    preferred_sectors := ["healthcare", "education", "clean_energy", "community_development", "affordable_housing"] }

/-- ALL_METHODOLOGIES.CATHOLIC (src/utils/constants.ts). -/
def CATHOLIC : Methodology :=
  { name := "Catholic Social Teaching", type := "christian",
    criteria := { exclude_sin_stocks := some true, min_community_impact_score := some 7.0,
                  support_human_dignity := some true },
    prohibited_sectors := ["alcohol", "tobacco", "gambling", "adult_entertainment", "abortion_services",
                           "contraceptives", "embryonic_stem_cell", "predatory_lending"],
    preferred_sectors := ["healthcare", "education", "community_development", "fair_trade", "microfinance"] }

/-- ALL_METHODOLOGIES.ORTHODOX (src/utils/constants.ts). -/
def ORTHODOX : Methodology :=
  { name := "Orthodox Jewish Values", type := "jewish",
    criteria := { kosher_food_only := some true, sabbath_observant := some true,
                  exclude_mixed_textiles := some true },
    prohibited_sectors := ["pork", "shellfish", "non_kosher_food", "mixed_textiles", "gambling",
                           "adult_entertainment", "interest_based_lending"],
    preferred_sectors := ["kosher_food", "technology", "healthcare", "education", "israel_bonds"] }

/-- ALL_METHODOLOGIES.CONSERVATIVE (src/utils/constants.ts). -/
def CONSERVATIVE : Methodology :=
  { name := "Conservative Jewish Values", type := "jewish",
    criteria := { kosher_food_only := some false, sabbath_observant := some false,
                  exclude_mixed_textiles := some false },
    prohibited_sectors := ["pork", "gambling", "adult_entertainment", "weapons"],
    preferred_sectors := ["technology", "healthcare", "education", "social_justice"] }

/-- ALL_METHODOLOGIES (src/utils/constants.ts), in declaration order. -/
def ALL_METHODOLOGIES : List (String × Methodology) :=
  [("AAOIFI", AAOIFI), ("DJIM", DJIM), ("FTSE", FTSE), ("MSCI", MSCI),
   ("MSCI_M_SERIES", MSCI_M_SERIES), ("SP500", SP500), ("INDONESIA", INDONESIA),
   ("MALAYSIA", MALAYSIA), ("MSCI_ESG", MSCI_ESG), ("SUSTAINALYTICS", SUSTAINALYTICS),
   ("FTSE4GOOD", FTSE4GOOD), ("SRI", SRI), ("CATHOLIC", CATHOLIC),
   ("ORTHODOX", ORTHODOX), ("CONSERVATIVE", CONSERVATIVE)]

/-- getMethodologiesByType (src/utils/constants.ts): the entries of
ALL_METHODOLOGIES whose type matches, preserving declaration order. -/
def getMethodologiesByType (type : String) : List (String × Methodology) :=
  ALL_METHODOLOGIES.filter (fun kv => kv.2.type == type)

/-- getMethodologyByKey (src/utils/constants.ts). -/
def getMethodologyByKey (key : String) : Option Methodology :=
  ALL_METHODOLOGIES.lookup key

/-- validateMethodology (src/utils/constants.ts): JavaScript truthiness of
name, type, criteria and prohibited_sectors; the object and array fields
are always truthy, so only the two strings can fail. -/
def validateMethodology (m : Methodology) : Bool :=
  !(m.name == "") && !(m.type == "")

/-- isSectorProhibited (src/utils/constants.ts). -/
def isSectorProhibited (stockSector : String) (prohibitedSectors : List String) : Bool :=
  prohibitedSectors.any (fun prohibitedSector =>
    (getSectorClassification prohibitedSector).contains stockSector)

/-- interface SectorCheckResult, `details` part (src/unnamed/part_002). -/
structure SectorDetails where
  sector : String
  isProhibited : Bool
  isPreferred : Bool
  prohibitedCategories : List String
  deriving DecidableEq

/-- interface SectorCheckResult (src/unnamed/part_002). -/
structure SectorCheckResult where
  passed : Bool
  details : SectorDetails
  deriving DecidableEq

/-- One entry of the per-field `details` record kept by the quantitative
check (src/unnamed/part_002); field names follow the object literals
stored there (ratio for cash/debt/receivables, value for income, score
for esg and governance, and so on). -/
structure QuantDetail where
  ratio : Option JNum := none
  value : Option JNum := none
  score : Option JNum := none
  risk : Option JNum := none
  intensity : Option JNum := none
  diversity : Option JNum := none
  limit : Option JNum := none
  maximum : Option JNum := none
  minimum : Option JNum := none
  passed : Bool
  deriving DecidableEq

/-- One key of the `checks` record together with its boolean and (where the
source stores one) its detail record; the TS code inserts `checks[name]`
and `details[name]` in the same branch. -/
structure QuantEntry where
  name : String
  passed : Bool
  detail : Option QuantDetail
  deriving DecidableEq

/-- interface QuantitativeCheckResult (src/unnamed/part_002); the string-keyed
`checks` and `details` records become association lists in insertion order. -/
structure QuantitativeCheckResult where
  passed : Bool
  checks : List (String × Bool)
  failedCriteria : List String
  details : List (String × QuantDetail)
  deriving DecidableEq

/-- interface QualitativeCheckResult, `details` part (src/unnamed/part_002). -/
structure QualitativeDetails where
  controversies : Option StockControversies
  hasControversies : Bool
  severityLevel : Option Severity
  failureReasons : Option (List String)
  deriving DecidableEq

/-- interface QualitativeCheckResult (src/unnamed/part_002). -/
structure QualitativeCheckResult where
  passed : Bool
  details : QualitativeDetails
  deriving DecidableEq

/-- interface ScreeningResult (src/unnamed/part_002); complianceScore and
recommendations are optional in the interface, hence `Option` here. -/
structure ScreeningResult where
  isCompliant : Bool
  sectorCheck : SectorCheckResult
  quantitativeCheck : QuantitativeCheckResult
  qualitativeCheck : QualitativeCheckResult
  screeningType : String
  methodology : String
  complianceScore : Option ℤ
  recommendations : Option (List String)
  deriving DecidableEq

/-- The constructed TypeScript engine (class EthicalStockScreener,
src/unnamed/part_002): its two private fields. -/
structure EthicalStockScreener where
  screeningType : String
  methodology : Methodology
  deriving DecidableEq

/-- The fallback path of EthicalStockScreener.getMethodology
(src/unnamed/part_002, lines 105-114), taken after the exact (key, type)
match fails: `methodologiesForType[methodologyKey] ||
methodologiesForType[availableKeys[0]] || ALL_METHODOLOGIES.AAOIFI`. -/
def getMethodologyFallback (screeningType methodologyKey : String) : Except String Methodology :=
  let methodologiesForType := getMethodologiesByType screeningType
  if methodologiesForType.isEmpty then
    Except.error ("No methodologies available for screening type: " ++ screeningType)
  else
    match methodologiesForType.lookup methodologyKey with
    | some m => Except.ok m
    | none =>
      match methodologiesForType.head? with
      | some kv => Except.ok kv.2
      | none => Except.ok AAOIFI

/-- EthicalStockScreener.getMethodology (src/unnamed/part_002, lines 97-115).
The TS method throws for a type with no methodologies; that throw is the
`Except.error` case. -/
def getMethodology (screeningType methodologyKey : String) : Except String Methodology :=
  match getMethodologyByKey methodologyKey with
  | some methodology =>
    if methodology.type == screeningType then
      Except.ok methodology
    else
      getMethodologyFallback screeningType methodologyKey
  | none => getMethodologyFallback screeningType methodologyKey

/-- The EthicalStockScreener constructor (src/unnamed/part_002, lines 84-95):
resolve the methodology (propagating its throw), then validate it. The
`!this.methodology` throw is unreachable because getMethodology never
returns a falsy value. -/
def construct (screeningType methodologyKey : String) : Except String EthicalStockScreener :=
  match getMethodology screeningType methodologyKey with
  | Except.error e => Except.error e
  | Except.ok m =>
    if validateMethodology m then
      Except.ok { screeningType := screeningType, methodology := m }
    else
      Except.error ("Invalid methodology configuration: " ++ methodologyKey)

/-- checkSectorCompliance (src/unnamed/part_002, lines 136-161). -/
def checkSectorCompliance (m : Methodology) (stock : Stock) : SectorCheckResult :=
  let isProhibited := isSectorProhibited stock.sector m.prohibited_sectors
  let isPreferred := m.preferred_sectors.isEmpty ||
    m.preferred_sectors.any (fun preferredSector =>
      (getSectorClassification preferredSector).contains stock.sector)
  let prohibitedCategories := m.prohibited_sectors.filter (fun ps =>
    (getSectorClassification ps).contains stock.sector)
  { passed := !isProhibited && isPreferred,
    details := { sector := stock.sector, isProhibited := isProhibited,
                 isPreferred := isPreferred, prohibitedCategories := prohibitedCategories } }

/-- The `cash_limit` branch of checkQuantitativeCompliance. -/
def cashEntry (criteria : ScreeningCriteria) (financials : StockFinancials) : List QuantEntry :=
  match criteria.cash_limit with
  | none => []
  | some lim =>
    let ratio := jsOrQ financials.cash_ratio 0 * 100
    let passed := decide (ratio ≤ lim)
    [{ name := "cash", passed := passed,
       detail := some { ratio := some (.fin ratio), limit := some (.fin lim), passed := passed } }]

/-- The `debt_limit` branch of checkQuantitativeCompliance. -/
def debtEntry (criteria : ScreeningCriteria) (financials : StockFinancials) : List QuantEntry :=
  match criteria.debt_limit with
  | none => []
  | some lim =>
    let ratio := jsOrQ financials.debt_ratio 0 * 100
    let passed := decide (ratio ≤ lim)
    [{ name := "debt", passed := passed,
       detail := some { ratio := some (.fin ratio), limit := some (.fin lim), passed := passed } }]

/-- The `receivables_limit` branch of checkQuantitativeCompliance. -/
def receivablesEntry (criteria : ScreeningCriteria) (financials : StockFinancials) : List QuantEntry :=
  match criteria.receivables_limit with
  | none => []
  | some lim =>
    let ratio := jsOrQ financials.receivables_ratio 0 * 100
    let passed := decide (ratio ≤ lim)
    [{ name := "receivables", passed := passed,
       detail := some { ratio := some (.fin ratio), limit := some (.fin lim), passed := passed } }]

/-- The `impermissible_income_limit` branch of checkQuantitativeCompliance. -/
def incomeEntry (criteria : ScreeningCriteria) (financials : StockFinancials) : List QuantEntry :=
  match criteria.impermissible_income_limit with
  | none => []
  | some lim =>
    let income := jsOrQ financials.impermissible_income 0 * 100
    let passed := decide (income ≤ lim)
    [{ name := "income", passed := passed,
       detail := some { value := some (.fin income), limit := some (.fin lim), passed := passed } }]

/-- The `min_esg_score` branch of checkQuantitativeCompliance. -/
def esgScoreEntry (criteria : ScreeningCriteria) (financials : StockFinancials) : List QuantEntry :=
  match criteria.min_esg_score with
  | none => []
  | some minv =>
    let score := jsOrQ financials.esg_score 0
    let passed := decide (score ≥ minv)
    [{ name := "esg_score", passed := passed,
       detail := some { score := some (.fin score), minimum := some (.fin minv), passed := passed } }]

/-- The `max_esg_risk` branch of checkQuantitativeCompliance
(`financials.esg_risk || 100`: missing risk defaults to the worst case). -/
def esgRiskEntry (criteria : ScreeningCriteria) (financials : StockFinancials) : List QuantEntry :=
  match criteria.max_esg_risk with
  | none => []
  | some maxv =>
    let risk := jsOrQ financials.esg_risk 100
    let passed := decide (risk ≤ maxv)
    [{ name := "esg_risk", passed := passed,
       detail := some { risk := some (.fin risk), maximum := some (.fin maxv), passed := passed } }]

/-- The `max_carbon_intensity` branch of checkQuantitativeCompliance
(`financials.carbon_intensity || Infinity`). -/
def carbonEntry (criteria : ScreeningCriteria) (financials : StockFinancials) : List QuantEntry :=
  match criteria.max_carbon_intensity with
  | none => []
  | some maxv =>
    let intensity := jsOrInf financials.carbon_intensity
    let passed := intensity.le (.fin maxv)
    [{ name := "carbon", passed := passed,
       detail := some { intensity := some intensity, maximum := some (.fin maxv), passed := passed } }]

/-- The `min_board_diversity` branch of checkQuantitativeCompliance. -/
def diversityEntry (criteria : ScreeningCriteria) (financials : StockFinancials) : List QuantEntry :=
  match criteria.min_board_diversity with
  | none => []
  | some minv =>
    let diversity := jsOrQ financials.board_diversity 0
    let passed := decide (diversity ≥ minv)
    [{ name := "diversity", passed := passed,
       detail := some { diversity := some (.fin diversity), minimum := some (.fin minv), passed := passed } }]

/-- The `min_governance_score` branch of checkQuantitativeCompliance. -/
def governanceEntry (criteria : ScreeningCriteria) (financials : StockFinancials) : List QuantEntry :=
  match criteria.min_governance_score with
  | none => []
  | some minv =>
    let score := jsOrQ financials.governance_score 0
    let passed := decide (score ≥ minv)
    [{ name := "governance", passed := passed,
       detail := some { score := some (.fin score), minimum := some (.fin minv), passed := passed } }]

/-- The `exclude_sin_stocks` branch of checkQuantitativeCompliance: a
placeholder that records `checks.sin_stocks = true` and no detail entry. -/
def sinStocksEntry (criteria : ScreeningCriteria) : List QuantEntry :=
  match criteria.exclude_sin_stocks with
  | none => []
  | some _ => [{ name := "sin_stocks", passed := true, detail := none }]

/-- The `checks`/`details` insertions of checkQuantitativeCompliance
(src/unnamed/part_002, lines 163-237) in source order. -/
def quantEntries (criteria : ScreeningCriteria) (financials : StockFinancials) : List QuantEntry :=
  cashEntry criteria financials ++ debtEntry criteria financials ++
  receivablesEntry criteria financials ++ incomeEntry criteria financials ++
  esgScoreEntry criteria financials ++ esgRiskEntry criteria financials ++
  carbonEntry criteria financials ++ diversityEntry criteria financials ++
  governanceEntry criteria financials ++ sinStocksEntry criteria

/-- checkQuantitativeCompliance (src/unnamed/part_002, lines 163-247). -/
def checkQuantitativeCompliance (m : Methodology) (stock : Stock) : QuantitativeCheckResult :=
  let entries := quantEntries m.criteria stock.financials
  { passed := entries.all (fun en => en.passed),
    checks := entries.map (fun en => (en.name, en.passed)),
    failedCriteria := (entries.filter (fun en => !en.passed)).map (fun en => en.name),
    details := entries.filterMap (fun en => en.detail.map (fun d => (en.name, d))) }

/-- checkQualitativeCompliance (src/unnamed/part_002, lines 249-283). -/
def checkQualitativeCompliance (m : Methodology) (stock : Stock) : QualitativeCheckResult :=
  let criteria := m.criteria
  let failureReasons : List String :=
    match stock.controversies with
    | none => []
    | some co =>
      (if criteria.exclude_severe_controversies.getD false && co.severity == some Severity.severe then
        ["Severe controversies detected"]
      else []) ++
      (if criteria.exclude_controversies.getD false &&
          (match co.severity with
           | some severity => [Severity.medium, Severity.high, Severity.severe].contains severity
           | none => false) then
        ["Controversies detected"]
      else [])
  { passed := failureReasons.isEmpty,
    details := { controversies := stock.controversies,
                 hasControversies := stock.controversies.isSome,
                 severityLevel := stock.controversies.bind StockControversies.severity,
                 failureReasons := if failureReasons.length > 0 then some failureReasons else none } }

/-- JavaScript Math.round on the nonnegative values produced by the score
computation (floor of x + 1/2). -/
def jsRound (q : ℚ) : ℤ :=
  ⌊q + 1 / 2⌋

/-- calculateComplianceScore (src/unnamed/part_002, lines 285-298). -/
def calculateComplianceScore (sector : SectorCheckResult)
    (quantitative : QuantitativeCheckResult) (qualitative : QualitativeCheckResult) : ℤ :=
  let score : ℚ := (if sector.passed then 1 else 0) + (if quantitative.passed then 1 else 0) +
    (if qualitative.passed then 1 else 0)
  let maxScore : ℚ := 3
  jsRound (score / maxScore * 100)

/-- generateRecommendations (src/unnamed/part_002, lines 300-332). -/
def generateRecommendations (sector : SectorCheckResult)
    (quantitative : QuantitativeCheckResult) (qualitative : QualitativeCheckResult) : List String :=
  (if !sector.passed then
    (if sector.details.isProhibited then
      ["Consider excluding due to prohibited sector: " ++ sector.details.sector]
    else []) ++
    (if !sector.details.isPreferred then
      ["Consider focusing on preferred sectors for better alignment"]
    else [])
  else []) ++
  (if !quantitative.passed then
    quantitative.failedCriteria.filterMap (fun criteria =>
      match quantitative.details.lookup criteria with
      | some detail =>
        some (criteria ++ " ratio needs improvement: " ++
          numToStr (jsNumOr detail.ratio detail.value) ++ "% (limit: " ++
          numToStr (jsNumOr (jsNumOr detail.limit detail.maximum) detail.minimum) ++ "%)")
      | none => none)
  else []) ++
  (if !qualitative.passed then
    match qualitative.details.failureReasons with
    | some reasons => reasons.map (fun reason => "Address qualitative concern: " ++ reason)
    | none => []
  else [])

/-- EthicalStockScreener.screenStock (src/unnamed/part_002, lines 117-134). -/
def screenStock (e : EthicalStockScreener) (stock : Stock) : ScreeningResult :=
  let sectorCompliant := checkSectorCompliance e.methodology stock
  let quantitativeCompliant := checkQuantitativeCompliance e.methodology stock
  let qualitativeCompliant := checkQualitativeCompliance e.methodology stock
  { isCompliant := sectorCompliant.passed && quantitativeCompliant.passed && qualitativeCompliant.passed,
    sectorCheck := sectorCompliant,
    quantitativeCheck := quantitativeCompliant,
    qualitativeCheck := qualitativeCompliant,
    screeningType := e.screeningType,
    methodology := e.methodology.name,
    complianceScore := some (calculateComplianceScore sectorCompliant quantitativeCompliant qualitativeCompliant),
    recommendations := some (generateRecommendations sectorCompliant quantitativeCompliant qualitativeCompliant) }

namespace JS

/-- Modelled from the spec: the untyped engine (src/unnamed/part_001) imports
ISLAMIC_METHODOLOGIES from a constants module version that is not in the
available source; per the spec (Screening Type Index: groups methodologies
by faith/framework category, declaration order) it is the islamic subset
of the registry. -/
def ISLAMIC_METHODOLOGIES : List (String × Methodology) :=
  getMethodologiesByType "islamic"

/-- Modelled from the spec: ESG_METHODOLOGIES, the esg subset of the
registry (see ISLAMIC_METHODOLOGIES). -/
def ESG_METHODOLOGIES : List (String × Methodology) :=
  getMethodologiesByType "esg"

/-- Modelled from the spec: CHRISTIAN_METHODOLOGIES, the christian subset
of the registry (see ISLAMIC_METHODOLOGIES). -/
def CHRISTIAN_METHODOLOGIES : List (String × Methodology) :=
  getMethodologiesByType "christian"

/-- Modelled from the spec: JEWISH_METHODOLOGIES, the jewish subset of the
registry (see ISLAMIC_METHODOLOGIES). -/
def JEWISH_METHODOLOGIES : List (String × Methodology) :=
  getMethodologiesByType "jewish"

/-- The untyped engine's quantitative check result (src/unnamed/part_001):
no `details` record. -/
structure QuantitativeCheckResult where
  passed : Bool
  checks : List (String × Bool)
  failedCriteria : List String
  deriving DecidableEq

/-- The untyped engine's qualitative check result (src/unnamed/part_001). -/
structure QualitativeCheckResult where
  passed : Bool
  controversies : Option StockControversies
  hasControversies : Bool
  deriving DecidableEq

/-- The untyped engine's screening result (src/unnamed/part_001): no
complianceScore and no recommendations. -/
structure ScreeningResult where
  isCompliant : Bool
  sectorCheck : SectorCheckResult
  quantitativeCheck : QuantitativeCheckResult
  qualitativeCheck : QualitativeCheckResult
  screeningType : String
  methodology : String
  deriving DecidableEq

/-- The constructed untyped engine (src/unnamed/part_001). -/
structure EthicalStockScreener where
  screeningType : String
  methodology : Methodology
  deriving DecidableEq

/-- getMethodology of the untyped engine (src/unnamed/part_001, lines 16-25):
`methodologyMaps[screeningType]?.[methodologyKey] || ISLAMIC_METHODOLOGIES.AAOIFI`.
It never throws. -/
def getMethodology (screeningType methodologyKey : String) : Methodology :=
  let map : Option (List (String × Methodology)) :=
    if screeningType == "islamic" then some ISLAMIC_METHODOLOGIES
    else if screeningType == "esg" then some ESG_METHODOLOGIES
    else if screeningType == "christian" then some CHRISTIAN_METHODOLOGIES
    else if screeningType == "jewish" then some JEWISH_METHODOLOGIES
    else none
  ((map.bind (fun l => l.lookup methodologyKey)).getD AAOIFI)

/-- The untyped engine's constructor (src/unnamed/part_001, lines 11-14). -/
def construct (screeningType methodologyKey : String) : EthicalStockScreener :=
  { screeningType := screeningType, methodology := getMethodology screeningType methodologyKey }

/-- checkSectorCompliance of the untyped engine (src/unnamed/part_001,
lines 42-64); the membership tests are inlined rather than calling
isSectorProhibited but compute the same result shape. -/
def checkSectorCompliance (m : Methodology) (stock : Stock) : SectorCheckResult :=
  let isProhibited := m.prohibited_sectors.any (fun prohibitedSector =>
    (getSectorClassification prohibitedSector).contains stock.sector)
  let isPreferred := m.preferred_sectors.isEmpty ||
    m.preferred_sectors.any (fun preferredSector =>
      (getSectorClassification preferredSector).contains stock.sector)
  { passed := !isProhibited && isPreferred,
    details := { sector := stock.sector, isProhibited := isProhibited,
                 isPreferred := isPreferred,
                 prohibitedCategories := m.prohibited_sectors.filter (fun ps =>
                   (getSectorClassification ps).contains stock.sector) } }

/-- A raw JavaScript comparison `x <= limit` where `x` may be undefined:
`undefined <= limit` is a NaN comparison and yields false. -/
def jsRawLe (v : Option ℚ) (lim : ℚ) : Bool :=
  match v with
  | some x => decide (x ≤ lim)
  | none => false

/-- checkQuantitativeCompliance of the untyped engine (src/unnamed/part_001,
lines 66-106): ratios are compared raw (no `* 100`, no `|| 0` default),
and only cash, debt, receivables, income, esg_score, carbon and diversity
branches exist. -/
def quantChecks (criteria : ScreeningCriteria) (financials : StockFinancials) :
    List (String × Bool) :=
  (match criteria.cash_limit with
   | some lim => [("cash", jsRawLe financials.cash_ratio lim)]
   | none => []) ++
  (match criteria.debt_limit with
   | some lim => [("debt", jsRawLe financials.debt_ratio lim)]
   | none => []) ++
  (match criteria.receivables_limit with
   | some lim => [("receivables", jsRawLe financials.receivables_ratio lim)]
   | none => []) ++
  (match criteria.impermissible_income_limit with
   | some lim => [("income", jsRawLe financials.impermissible_income lim)]
   | none => []) ++
  (match criteria.min_esg_score with
   | some minv => [("esg_score", decide (jsOrQ financials.esg_score 0 ≥ minv))]
   | none => []) ++
  (match criteria.max_carbon_intensity with
   | some maxv => [("carbon", (jsOrInf financials.carbon_intensity).le (.fin maxv))]
   | none => []) ++
  (match criteria.min_board_diversity with
   | some minv => [("diversity", decide (jsOrQ financials.board_diversity 0 ≥ minv))]
   | none => [])

/-- checkQuantitativeCompliance of the untyped engine (src/unnamed/part_001). -/
def checkQuantitativeCompliance (m : Methodology) (stock : Stock) : QuantitativeCheckResult :=
  let checks := quantChecks m.criteria stock.financials
  { passed := checks.all (fun c => c.2),
    checks := checks,
    failedCriteria := (checks.filter (fun c => !c.2)).map (fun c => c.1) }

/-- checkQualitativeCompliance of the untyped engine (src/unnamed/part_001,
lines 108-120): it ignores the methodology criteria entirely and fails
exactly when the stock has controversies of severity `severe`. -/
def checkQualitativeCompliance (stock : Stock) : QualitativeCheckResult :=
  let hasControversies :=
    match stock.controversies with
    | some co => co.severity == some Severity.severe
    | none => false
  { passed := !hasControversies,
    controversies := stock.controversies,
    hasControversies := hasControversies }

/-- screenStock of the untyped engine (src/unnamed/part_001, lines 27-40). -/
def screenStock (e : EthicalStockScreener) (stock : Stock) : ScreeningResult :=
  let sectorCompliant := checkSectorCompliance e.methodology stock
  let quantitativeCompliant := checkQuantitativeCompliance e.methodology stock
  let qualitativeCompliant := checkQualitativeCompliance stock
  { isCompliant := sectorCompliant.passed && quantitativeCompliant.passed && qualitativeCompliant.passed,
    sectorCheck := sectorCompliant,
    quantitativeCheck := quantitativeCompliant,
    qualitativeCheck := qualitativeCompliant,
    screeningType := e.screeningType,
    methodology := e.methodology.name }

end JS

/-! Concrete fixtures for the spec scenarios. -/

/-- Scenario B stock: esg_score 8.0, carbon_intensity 50, board_diversity 40,
sector Software, no controversies. -/
def scenarioBStock : Stock :=
  { symbol := "SCENB", name := "Scenario B Corp", sector := "Software",
    financials := { esg_score := some 8, carbon_intensity := some 50, board_diversity := some 40 } }

/-- Scenario C stock: severe controversies, sector Healthcare. -/
def scenarioCStock : Stock :=
  { symbol := "SCENC", name := "Scenario C Corp", sector := "Healthcare",
    financials := {},
    controversies := some { severity := some Severity.severe } }

/-- A stock with severe controversies, a neutral sector and empty financials. -/
def severeStock : Stock :=
  { symbol := "SEV", name := "Severe Corp", sector := "Software",
    financials := {},
    controversies := some { severity := some Severity.severe } }

/-- A prohibited-sector stock (sector Banks). -/
def bankStock : Stock :=
  { symbol := "BNK", name := "Bank Corp", sector := "Banks", financials := {} }

/-- A fixed passing sector check result. -/
def sectorPassResult : SectorCheckResult :=
  { passed := true,
    details := { sector := "Software", isProhibited := false, isPreferred := true,
                 prohibitedCategories := [] } }

/-- A fixed failing sector check result. -/
def sectorFailResult : SectorCheckResult :=
  { passed := false,
    details := { sector := "Banks", isProhibited := true, isPreferred := true,
                 prohibitedCategories := ["banks"] } }

/-- A fixed passing quantitative check result. -/
def quantPassResult : QuantitativeCheckResult :=
  { passed := true, checks := [], failedCriteria := [], details := [] }

/-- A fixed passing qualitative check result. -/
def qualPassResult : QualitativeCheckResult :=
  { passed := true,
    details := { controversies := none, hasControversies := false,
                 severityLevel := none, failureReasons := none } }

/-! Helper lemmas. -/

/-- A successful association-list lookup returns one of the stored values. -/
lemma lookup_mem_snd {l : List (String × Methodology)} {k : String} {m : Methodology}
    (h : l.lookup k = some m) : m ∈ l.map Prod.snd := by
  induction l with
  | nil => simp [List.lookup] at h
  | cons a t ih =>
    rw [List.lookup] at h
    by_cases hk : (k == a.1) = true
    · rw [hk] at h
      simp only [Option.some.injEq] at h
      simp [h]
    · rw [Bool.not_eq_true] at hk
      rw [hk] at h
      simp [ih h]

/-- The number of passed sub-checks as a function of the three booleans. -/
def boolCount (a b c : Bool) : ℕ :=
  (if a then 1 else 0) + (if b then 1 else 0) + (if c then 1 else 0)

/-- The number of passed sub-checks recorded in a screening result. -/
def passedSubChecks (r : ScreeningResult) : ℕ :=
  boolCount r.sectorCheck.passed r.quantitativeCheck.passed r.qualitativeCheck.passed

lemma calculateComplianceScore_eq (s : SectorCheckResult) (qn : QuantitativeCheckResult)
    (ql : QualitativeCheckResult) :
    calculateComplianceScore s qn ql =
      jsRound (100 * (boolCount s.passed qn.passed ql.passed : ℚ) / 3) := by
  cases hs : s.passed <;> cases hq : qn.passed <;> cases hl : ql.passed <;>
    norm_num [calculateComplianceScore, boolCount, hs, hq, hl, jsRound]

lemma jsRound_count_mem (a b c : Bool) :
    jsRound (100 * (boolCount a b c : ℚ) / 3) ∈ ([0, 33, 67, 100] : List ℤ) := by
  cases a <;> cases b <;> cases c <;> norm_num [boolCount, jsRound]

lemma jsRound_count_one (a b c : Bool) (h : boolCount a b c = 1) :
    jsRound (100 * (boolCount a b c : ℚ) / 3) = 33 := by
  cases a <;> cases b <;> cases c <;> simp_all [boolCount] <;> norm_num [jsRound]

lemma jsRound_count_two (a b c : Bool) (h : boolCount a b c = 2) :
    jsRound (100 * (boolCount a b c : ℚ) / 3) = 67 := by
  cases a <;> cases b <;> cases c <;> simp_all [boolCount] <;> norm_num [jsRound]

lemma jsRound_count_mono (a b c a' b' c' : Bool) (h : boolCount a b c ≤ boolCount a' b' c') :
    jsRound (100 * (boolCount a b c : ℚ) / 3) ≤ jsRound (100 * (boolCount a' b' c' : ℚ) / 3) := by
  cases a <;> cases b <;> cases c <;> cases a' <;> cases b' <;> cases c' <;>
    simp_all [boolCount] <;> norm_num [jsRound]

/-! Claim theorems. -/

/-- C1: for every stock and every constructed engine, the sector check
passes iff the stock's literal sector string is in the member list of no
tag of the methodology's prohibited_sectors and (preferred_sectors is
empty or the sector is in the member list of at least one preferred tag);
and prohibitedCategories is exactly the subset of prohibited_sectors tags
whose member list contains the sector. -/
theorem sector_check_spec (st key : String) (e : EthicalStockScreener) (stock : Stock)
    (h : construct st key = Except.ok e) :
    ((screenStock e stock).sectorCheck.passed = true ↔
      ((∀ tag ∈ e.methodology.prohibited_sectors, stock.sector ∉ getSectorClassification tag) ∧
       (e.methodology.preferred_sectors = [] ∨
        ∃ tag ∈ e.methodology.preferred_sectors, stock.sector ∈ getSectorClassification tag))) ∧
    (∀ tag, tag ∈ (screenStock e stock).sectorCheck.details.prohibitedCategories ↔
      (tag ∈ e.methodology.prohibited_sectors ∧ stock.sector ∈ getSectorClassification tag)) := by
  constructor
  · show (checkSectorCompliance e.methodology stock).passed = true ↔ _
    simp [checkSectorCompliance, isSectorProhibited, List.any_eq_true, List.isEmpty_iff]
  · intro tag
    show tag ∈ (checkSectorCompliance e.methodology stock).details.prohibitedCategories ↔ _
    simp [checkSectorCompliance, List.mem_filter]

/-- C1 witness: instantiation at the AAOIFI engine and a Banks-sector stock. -/
theorem sector_check_spec_witness :
    (((screenStock ⟨"islamic", AAOIFI⟩ bankStock).sectorCheck.passed = true ↔
      ((∀ tag ∈ (⟨"islamic", AAOIFI⟩ : EthicalStockScreener).methodology.prohibited_sectors,
          bankStock.sector ∉ getSectorClassification tag) ∧
       ((⟨"islamic", AAOIFI⟩ : EthicalStockScreener).methodology.preferred_sectors = [] ∨
        ∃ tag ∈ (⟨"islamic", AAOIFI⟩ : EthicalStockScreener).methodology.preferred_sectors,
          bankStock.sector ∈ getSectorClassification tag))) ∧
    (∀ tag, tag ∈ (screenStock ⟨"islamic", AAOIFI⟩ bankStock).sectorCheck.details.prohibitedCategories ↔
      (tag ∈ (⟨"islamic", AAOIFI⟩ : EthicalStockScreener).methodology.prohibited_sectors ∧
       bankStock.sector ∈ getSectorClassification tag))) :=
  sector_check_spec "islamic" "AAOIFI" ⟨"islamic", AAOIFI⟩ bankStock rfl

/-- C2: the compliance score returned by screenStock is
round(100 × passedCount / 3), always one of 0, 33, 67, 100 (33 for one
passed sub-check, 67 for two), and monotone in the number of passed
sub-checks. -/
theorem compliance_score_spec (e e' : EthicalStockScreener) (s s' : Stock)
    (h : passedSubChecks (screenStock e s) ≤ passedSubChecks (screenStock e' s')) :
    ∃ n n' : ℤ,
      (screenStock e s).complianceScore = some n ∧
      (screenStock e' s').complianceScore = some n' ∧
      n = jsRound (100 * (passedSubChecks (screenStock e s) : ℚ) / 3) ∧
      n ∈ ([0, 33, 67, 100] : List ℤ) ∧
      (passedSubChecks (screenStock e s) = 1 → n = 33) ∧
      (passedSubChecks (screenStock e s) = 2 → n = 67) ∧
      n ≤ n' := by
  refine ⟨calculateComplianceScore (checkSectorCompliance e.methodology s)
      (checkQuantitativeCompliance e.methodology s) (checkQualitativeCompliance e.methodology s),
    calculateComplianceScore (checkSectorCompliance e'.methodology s')
      (checkQuantitativeCompliance e'.methodology s') (checkQualitativeCompliance e'.methodology s'),
    rfl, rfl, ?_, ?_, ?_, ?_, ?_⟩
  · exact calculateComplianceScore_eq ..
  · rw [calculateComplianceScore_eq]
    exact jsRound_count_mem ..
  · intro h1
    rw [calculateComplianceScore_eq]
    exact jsRound_count_one _ _ _ h1
  · intro h2
    rw [calculateComplianceScore_eq]
    exact jsRound_count_two _ _ _ h2
  · rw [calculateComplianceScore_eq, calculateComplianceScore_eq]
    exact jsRound_count_mono _ _ _ _ _ _ h

/-- C2 witness: instantiation at the AAOIFI engine on a concrete
prohibited-sector stock (compared with itself). -/
theorem compliance_score_spec_witness :
    ∃ n n' : ℤ,
      (screenStock ⟨"islamic", AAOIFI⟩ bankStock).complianceScore = some n ∧
      (screenStock ⟨"islamic", AAOIFI⟩ bankStock).complianceScore = some n' ∧
      n = jsRound (100 * (passedSubChecks (screenStock ⟨"islamic", AAOIFI⟩ bankStock) : ℚ) / 3) ∧
      n ∈ ([0, 33, 67, 100] : List ℤ) ∧
      (passedSubChecks (screenStock ⟨"islamic", AAOIFI⟩ bankStock) = 1 → n = 33) ∧
      (passedSubChecks (screenStock ⟨"islamic", AAOIFI⟩ bankStock) = 2 → n = 67) ∧
      n ≤ n' :=
  compliance_score_spec ⟨"islamic", AAOIFI⟩ ⟨"islamic", AAOIFI⟩ bankStock bankStock
    (Nat.le_refl _)

/-- C3: the qualitative check fails iff (exclude_severe_controversies is
set and severity is exactly severe) or (exclude_controversies is set and
severity is medium, high or severe); dropping the controversies record,
or unsetting both flags, always passes. -/
theorem qualitative_check_spec (m : Methodology) (stock : Stock) :
    ((checkQualitativeCompliance m stock).passed = false ↔
      ((m.criteria.exclude_severe_controversies = some true ∧
        stock.controversies.bind StockControversies.severity = some Severity.severe) ∨
       (m.criteria.exclude_controversies = some true ∧
        ∃ sv, stock.controversies.bind StockControversies.severity = some sv ∧
          (sv = Severity.medium ∨ sv = Severity.high ∨ sv = Severity.severe)))) ∧
    (checkQualitativeCompliance m { stock with controversies := none }).passed = true ∧
    (checkQualitativeCompliance
      { m with criteria :=
          { m.criteria with
            exclude_controversies := none
            exclude_severe_controversies := none } } stock).passed = true := by
  refine ⟨?_, by simp [checkQualitativeCompliance], by
    rcases stock with ⟨_, _, _, _, _ | ⟨_ | sv, cats, d⟩⟩ <;>
      simp [checkQualitativeCompliance]⟩
  rcases stock with ⟨sym, nm, sec, fin, co⟩
  rcases co with _ | ⟨sv, cats, d⟩
  · simp [checkQualitativeCompliance]
  · rcases sv with _ | sv
    · rcases hs : m.criteria.exclude_severe_controversies with _ | b <;>
        rcases hc : m.criteria.exclude_controversies with _ | b' <;>
          simp [checkQualitativeCompliance, hs, hc]
    · rcases hs : m.criteria.exclude_severe_controversies with _ | b <;>
        rcases hc : m.criteria.exclude_controversies with _ | b' <;>
          cases sv <;> simp [checkQualitativeCompliance, hs, hc] <;>
            first
              | rfl
              | (cases b <;> simp)
              | (cases b' <;> simp)
              | (cases b <;> cases b' <;> simp)

lemma klingon_no_methodologies : getMethodologiesByType "klingon" = [] := rfl

lemma registry_types_not_klingon :
    ∀ m ∈ ALL_METHODOLOGIES.map Prod.snd, ¬ m.type = "klingon" := by
  decide

/-- C4: engine construction resolves the methodology in order: exact
(key, type) match first; otherwise an empty type subset raises; otherwise
the key's entry in the subset if present, else the first methodology of
the type in declaration order. Concretely, screeningType klingon always
raises, while (islamic, NOT_A_KEY) resolves to AAOIFI. -/
theorem methodology_resolution_spec (st key : String) :
    (∀ m, getMethodologyByKey key = some m → m.type = st →
      getMethodology st key = Except.ok m) ∧
    ((∀ m, getMethodologyByKey key = some m → ¬ m.type = st) →
      getMethodologiesByType st = [] →
      ∃ msg, getMethodology st key = Except.error msg) ∧
    ((∀ m, getMethodologyByKey key = some m → ¬ m.type = st) →
      ∀ kv, (getMethodologiesByType st).head? = some kv →
        getMethodology st key =
          Except.ok (((getMethodologiesByType st).lookup key).getD kv.2)) ∧
    (∀ key', ∃ msg, construct "klingon" key' = Except.error msg) ∧
    construct "islamic" "NOT_A_KEY" = Except.ok ⟨"islamic", AAOIFI⟩ := by
  refine ⟨?_, ?_, ?_, ?_, rfl⟩
  · intro m hm hty
    simp [getMethodology, hm, hty]
  · intro hno hempty
    refine ⟨"No methodologies available for screening type: " ++ st, ?_⟩
    rcases hk : getMethodologyByKey key with _ | m
    · simp [getMethodology, hk, getMethodologyFallback, hempty]
    · have hne : (m.type == st) = false := by
        simpa using hno m hk
      simp [getMethodology, hk, hne, getMethodologyFallback, hempty]
  · intro hno kv hkv
    have hstep : getMethodology st key = getMethodologyFallback st key := by
      rcases hk : getMethodologyByKey key with _ | m
      · simp [getMethodology, hk]
      · have hne : (m.type == st) = false := by
          simpa using hno m hk
        simp [getMethodology, hk, hne]
    rw [hstep]
    rcases hsub : getMethodologiesByType st with _ | ⟨a, t⟩
    · simp [hsub] at hkv
    · rw [hsub] at hkv
      have hkva : kv = a := by simpa using hkv.symm
      subst hkva
      rcases hlk : (kv :: t).lookup key with _ | m'
      · simp [getMethodologyFallback, hsub, hlk]
      · simp [getMethodologyFallback, hsub, hlk]
  · intro key'
    have hstep : getMethodology "klingon" key' = getMethodologyFallback "klingon" key' := by
      rcases hk : getMethodologyByKey key' with _ | m
      · simp [getMethodology, hk]
      · have hmem := lookup_mem_snd hk
        have hne : (m.type == "klingon") = false := by
          simpa using registry_types_not_klingon m hmem
        simp [getMethodology, hk, hne]
    refine ⟨"No methodologies available for screening type: " ++ "klingon", ?_⟩
    simp [construct, hstep, getMethodologyFallback, klingon_no_methodologies]

/-- C4 witness: the exact-match branch applied at (islamic, DJIM). -/
theorem methodology_resolution_spec_witness :
    getMethodology "islamic" "DJIM" = Except.ok DJIM :=
  (methodology_resolution_spec "islamic" "DJIM").1 DJIM rfl rfl

lemma mem_failedCriteria_iff (m : Methodology) (stock : Stock) (nm : String) :
    nm ∈ (checkQuantitativeCompliance m stock).failedCriteria ↔
      ∃ en ∈ quantEntries m.criteria stock.financials, en.passed = false ∧ en.name = nm := by
  simp only [checkQuantitativeCompliance, List.mem_map, List.mem_filter]
  constructor
  · rintro ⟨en, ⟨hmem, hf⟩, hn⟩
    exact ⟨en, hmem, by simpa using hf, hn⟩
  · rintro ⟨en, hmem, hf, hn⟩
    exact ⟨en, ⟨hmem, by simp [hf]⟩, hn⟩

lemma name_of_mem_cashEntry {c : ScreeningCriteria} {f : StockFinancials} {en : QuantEntry}
    (h : en ∈ cashEntry c f) : en.name = "cash" := by
  rcases hc : c.cash_limit <;> simp [cashEntry, hc] at h <;> simp [h]

lemma name_of_mem_debtEntry {c : ScreeningCriteria} {f : StockFinancials} {en : QuantEntry}
    (h : en ∈ debtEntry c f) : en.name = "debt" := by
  rcases hc : c.debt_limit <;> simp [debtEntry, hc] at h <;> simp [h]

lemma name_of_mem_receivablesEntry {c : ScreeningCriteria} {f : StockFinancials} {en : QuantEntry}
    (h : en ∈ receivablesEntry c f) : en.name = "receivables" := by
  rcases hc : c.receivables_limit <;> simp [receivablesEntry, hc] at h <;> simp [h]

lemma name_of_mem_incomeEntry {c : ScreeningCriteria} {f : StockFinancials} {en : QuantEntry}
    (h : en ∈ incomeEntry c f) : en.name = "income" := by
  rcases hc : c.impermissible_income_limit <;> simp [incomeEntry, hc] at h <;> simp [h]

lemma name_of_mem_esgScoreEntry {c : ScreeningCriteria} {f : StockFinancials} {en : QuantEntry}
    (h : en ∈ esgScoreEntry c f) : en.name = "esg_score" := by
  rcases hc : c.min_esg_score <;> simp [esgScoreEntry, hc] at h <;> simp [h]

lemma name_of_mem_esgRiskEntry {c : ScreeningCriteria} {f : StockFinancials} {en : QuantEntry}
    (h : en ∈ esgRiskEntry c f) : en.name = "esg_risk" := by
  rcases hc : c.max_esg_risk <;> simp [esgRiskEntry, hc] at h <;> simp [h]

lemma name_of_mem_carbonEntry {c : ScreeningCriteria} {f : StockFinancials} {en : QuantEntry}
    (h : en ∈ carbonEntry c f) : en.name = "carbon" := by
  rcases hc : c.max_carbon_intensity <;> simp [carbonEntry, hc] at h <;> simp [h]

lemma name_of_mem_diversityEntry {c : ScreeningCriteria} {f : StockFinancials} {en : QuantEntry}
    (h : en ∈ diversityEntry c f) : en.name = "diversity" := by
  rcases hc : c.min_board_diversity <;> simp [diversityEntry, hc] at h <;> simp [h]

lemma name_of_mem_governanceEntry {c : ScreeningCriteria} {f : StockFinancials} {en : QuantEntry}
    (h : en ∈ governanceEntry c f) : en.name = "governance" := by
  rcases hc : c.min_governance_score <;> simp [governanceEntry, hc] at h <;> simp [h]

lemma name_of_mem_sinStocksEntry {c : ScreeningCriteria} {en : QuantEntry}
    (h : en ∈ sinStocksEntry c) : en.name = "sin_stocks" := by
  rcases hc : c.exclude_sin_stocks <;> simp [sinStocksEntry, hc] at h <;> simp [h]

lemma mem_quantEntries_iff {c : ScreeningCriteria} {f : StockFinancials} {en : QuantEntry} :
    en ∈ quantEntries c f ↔
      en ∈ cashEntry c f ∨ en ∈ debtEntry c f ∨ en ∈ receivablesEntry c f ∨
      en ∈ incomeEntry c f ∨ en ∈ esgScoreEntry c f ∨ en ∈ esgRiskEntry c f ∨
      en ∈ carbonEntry c f ∨ en ∈ diversityEntry c f ∨ en ∈ governanceEntry c f ∨
      en ∈ sinStocksEntry c := by
  simp [quantEntries, List.mem_append, or_assoc]

/-- C5: with max_carbon_intensity present, a missing carbon_intensity
always fails the carbon field (infinite default); with max_esg_risk
present, a missing esg_risk fails the esg_risk field exactly when the
maximum is below the default worst case 100. -/
theorem quantitative_missing_defaults (m : Methodology) (stock : Stock) (mc mr : ℚ) :
    "carbon" ∈ (checkQuantitativeCompliance
      { m with criteria := { m.criteria with max_carbon_intensity := some mc } }
      { stock with financials :=
          { stock.financials with carbon_intensity := none } }).failedCriteria ∧
    ("esg_risk" ∈ (checkQuantitativeCompliance
      { m with criteria := { m.criteria with max_esg_risk := some mr } }
      { stock with financials :=
          { stock.financials with esg_risk := none } }).failedCriteria ↔ mr < 100) := by
  constructor
  · rw [mem_failedCriteria_iff]
    refine ⟨⟨"carbon", false,
      some { intensity := some JNum.inf, maximum := some (JNum.fin mc), passed := false }⟩,
      ?_, rfl, rfl⟩
    rw [mem_quantEntries_iff]
    refine Or.inr (Or.inr (Or.inr (Or.inr (Or.inr (Or.inr (Or.inl ?_))))))
    simp [carbonEntry, jsOrInf, JNum.le]
  · rw [mem_failedCriteria_iff]
    constructor
    · rintro ⟨en, hmem, hfail, hname⟩
      rw [mem_quantEntries_iff] at hmem
      rcases hmem with h|h|h|h|h|h|h|h|h|h
      · rw [name_of_mem_cashEntry h] at hname; exact absurd hname (by decide)
      · rw [name_of_mem_debtEntry h] at hname; exact absurd hname (by decide)
      · rw [name_of_mem_receivablesEntry h] at hname; exact absurd hname (by decide)
      · rw [name_of_mem_incomeEntry h] at hname; exact absurd hname (by decide)
      · rw [name_of_mem_esgScoreEntry h] at hname; exact absurd hname (by decide)
      · simp [esgRiskEntry, jsOrQ] at h
        rw [h] at hfail
        simp at hfail
        linarith
      · rw [name_of_mem_carbonEntry h] at hname; exact absurd hname (by decide)
      · rw [name_of_mem_diversityEntry h] at hname; exact absurd hname (by decide)
      · rw [name_of_mem_governanceEntry h] at hname; exact absurd hname (by decide)
      · rw [name_of_mem_sinStocksEntry h] at hname; exact absurd hname (by decide)
    · intro hlt
      refine ⟨⟨"esg_risk", false,
        some { risk := some (JNum.fin 100), maximum := some (JNum.fin mr), passed := false }⟩,
        ?_, rfl, rfl⟩
      rw [mem_quantEntries_iff]
      refine Or.inr (Or.inr (Or.inr (Or.inr (Or.inr (Or.inl ?_)))))
      simp [esgRiskEntry, jsOrQ]
      first
        | linarith
        | (constructor <;> linarith)

lemma quantEntries_esg_zero (c : ScreeningCriteria) (f : StockFinancials) :
    quantEntries c { f with esg_risk := some 0 } = quantEntries c { f with esg_risk := none } := by
  unfold quantEntries cashEntry debtEntry receivablesEntry incomeEntry esgScoreEntry
    esgRiskEntry carbonEntry diversityEntry governanceEntry sinStocksEntry
  simp [jsOrQ]

lemma quantEntries_carbon_zero (c : ScreeningCriteria) (f : StockFinancials) :
    quantEntries c { f with carbon_intensity := some 0 } =
      quantEntries c { f with carbon_intensity := none } := by
  unfold quantEntries cashEntry debtEntry receivablesEntry incomeEntry esgScoreEntry
    esgRiskEntry carbonEntry diversityEntry governanceEntry sinStocksEntry
  simp [jsOrInf]

/-- C10: a present-but-zero esg_risk or carbon_intensity is coalesced
exactly like a missing value: the whole quantitative check result is
unchanged when 0 is replaced by absence, so a zero esg_risk fails iff
max_esg_risk is below 100, and a zero carbon_intensity fails any finite
max_carbon_intensity. -/
theorem quantitative_zero_coalesced (m : Methodology) (stock : Stock) (mc mr : ℚ) :
    checkQuantitativeCompliance m
        { stock with financials := { stock.financials with esg_risk := some 0 } } =
      checkQuantitativeCompliance m
        { stock with financials := { stock.financials with esg_risk := none } } ∧
    checkQuantitativeCompliance m
        { stock with financials := { stock.financials with carbon_intensity := some 0 } } =
      checkQuantitativeCompliance m
        { stock with financials := { stock.financials with carbon_intensity := none } } ∧
    ("esg_risk" ∈ (checkQuantitativeCompliance
        { m with criteria := { m.criteria with max_esg_risk := some mr } }
        { stock with financials :=
            { stock.financials with esg_risk := some 0 } }).failedCriteria ↔ mr < 100) ∧
    "carbon" ∈ (checkQuantitativeCompliance
        { m with criteria := { m.criteria with max_carbon_intensity := some mc } }
        { stock with financials :=
            { stock.financials with carbon_intensity := some 0 } }).failedCriteria := by
  refine ⟨?_, ?_, ?_, ?_⟩
  · simp only [checkQuantitativeCompliance]
    rw [quantEntries_esg_zero]
  · simp only [checkQuantitativeCompliance]
    rw [quantEntries_carbon_zero]
  · rw [mem_failedCriteria_iff]
    constructor
    · rintro ⟨en, hmem, hfail, hname⟩
      rw [mem_quantEntries_iff] at hmem
      rcases hmem with h|h|h|h|h|h|h|h|h|h
      · rw [name_of_mem_cashEntry h] at hname; exact absurd hname (by decide)
      · rw [name_of_mem_debtEntry h] at hname; exact absurd hname (by decide)
      · rw [name_of_mem_receivablesEntry h] at hname; exact absurd hname (by decide)
      · rw [name_of_mem_incomeEntry h] at hname; exact absurd hname (by decide)
      · rw [name_of_mem_esgScoreEntry h] at hname; exact absurd hname (by decide)
      · simp [esgRiskEntry, jsOrQ] at h
        rw [h] at hfail
        simp at hfail
        linarith
      · rw [name_of_mem_carbonEntry h] at hname; exact absurd hname (by decide)
      · rw [name_of_mem_diversityEntry h] at hname; exact absurd hname (by decide)
      · rw [name_of_mem_governanceEntry h] at hname; exact absurd hname (by decide)
      · rw [name_of_mem_sinStocksEntry h] at hname; exact absurd hname (by decide)
    · intro hlt
      refine ⟨⟨"esg_risk", false,
        some { risk := some (JNum.fin 100), maximum := some (JNum.fin mr), passed := false }⟩,
        ?_, rfl, rfl⟩
      rw [mem_quantEntries_iff]
      refine Or.inr (Or.inr (Or.inr (Or.inr (Or.inr (Or.inl ?_)))))
      simp [esgRiskEntry, jsOrQ]
      first
        | linarith
        | (constructor <;> linarith)
  · rw [mem_failedCriteria_iff]
    refine ⟨⟨"carbon", false,
      some { intensity := some JNum.inf, maximum := some (JNum.fin mc), passed := false }⟩,
      ?_, rfl, rfl⟩
    rw [mem_quantEntries_iff]
    refine Or.inr (Or.inr (Or.inr (Or.inr (Or.inr (Or.inr (Or.inl ?_))))))
    simp [carbonEntry, jsOrInf, JNum.le]

lemma scenarioB_sector_failed :
    (checkSectorCompliance MSCI_ESG scenarioBStock).passed = false := by
  decide

lemma scenarioB_quantitative_passed :
    (checkQuantitativeCompliance MSCI_ESG scenarioBStock).passed = true := by
  norm_num [checkQuantitativeCompliance, quantEntries, cashEntry, debtEntry, receivablesEntry,
    incomeEntry, esgScoreEntry, esgRiskEntry, carbonEntry, diversityEntry, governanceEntry,
    sinStocksEntry, MSCI_ESG, scenarioBStock, jsOrQ, jsOrInf, JNum.le]

lemma scenarioB_qualitative_passed :
    (checkQualitativeCompliance MSCI_ESG scenarioBStock).passed = true := by
  decide

/-- C6 counterexample: the Scenario B stock (esg_score 8, carbon 50,
diversity 40, sector Software) under the MSCI_ESG engine does not pass
all three sub-checks with score 100: its sector check fails. -/
theorem scenarioB_claim_false :
    ¬((screenStock ⟨"esg", MSCI_ESG⟩ scenarioBStock).sectorCheck.passed = true ∧
      (screenStock ⟨"esg", MSCI_ESG⟩ scenarioBStock).quantitativeCheck.passed = true ∧
      (screenStock ⟨"esg", MSCI_ESG⟩ scenarioBStock).qualitativeCheck.passed = true ∧
      (screenStock ⟨"esg", MSCI_ESG⟩ scenarioBStock).isCompliant = true ∧
      (screenStock ⟨"esg", MSCI_ESG⟩ scenarioBStock).complianceScore = some 100) := by
  rintro ⟨hs, -⟩
  have : (checkSectorCompliance MSCI_ESG scenarioBStock).passed = true := hs
  rw [scenarioB_sector_failed] at this
  exact absurd this (by decide)

/-- C6 amended: under the MSCI_ESG engine the Scenario B stock passes the
quantitative and qualitative checks but fails the sector check (Software
is in no preferred tag's member list and preferred_sectors is non-empty),
so overall compliance is false and the score is 67. -/
theorem scenarioB_amended :
    construct "esg" "MSCI_ESG" = Except.ok ⟨"esg", MSCI_ESG⟩ ∧
    (screenStock ⟨"esg", MSCI_ESG⟩ scenarioBStock).sectorCheck.passed = false ∧
    (screenStock ⟨"esg", MSCI_ESG⟩ scenarioBStock).quantitativeCheck.passed = true ∧
    (screenStock ⟨"esg", MSCI_ESG⟩ scenarioBStock).qualitativeCheck.passed = true ∧
    (screenStock ⟨"esg", MSCI_ESG⟩ scenarioBStock).isCompliant = false ∧
    (screenStock ⟨"esg", MSCI_ESG⟩ scenarioBStock).complianceScore = some 67 := by
  refine ⟨rfl, scenarioB_sector_failed, scenarioB_quantitative_passed,
    scenarioB_qualitative_passed, ?_, ?_⟩
  · show ((checkSectorCompliance MSCI_ESG scenarioBStock).passed &&
      (checkQuantitativeCompliance MSCI_ESG scenarioBStock).passed &&
      (checkQualitativeCompliance MSCI_ESG scenarioBStock).passed) = false
    rw [scenarioB_sector_failed]
    simp
  · show some (calculateComplianceScore (checkSectorCompliance MSCI_ESG scenarioBStock)
      (checkQuantitativeCompliance MSCI_ESG scenarioBStock)
      (checkQualitativeCompliance MSCI_ESG scenarioBStock)) = some 67
    rw [calculateComplianceScore_eq, scenarioB_sector_failed, scenarioB_quantitative_passed,
      scenarioB_qualitative_passed]
    norm_num [boolCount, jsRound]

lemma scenarioC_sector_failed :
    (checkSectorCompliance SRI scenarioCStock).passed = false := by
  decide

lemma scenarioC_quantitative_passed :
    (checkQuantitativeCompliance SRI scenarioCStock).passed = true := by
  decide

lemma scenarioC_qualitative_passed :
    (checkQualitativeCompliance SRI scenarioCStock).passed = true := by
  decide

/-- C7 counterexample: under the SRI (christian) engine, the Scenario C
stock (severe controversies, sector Healthcare) does not fail the
qualitative check: SRI sets neither controversy flag, so the qualitative
check passes and records no failure reasons. -/
theorem scenarioC_claim_false :
    ¬((screenStock ⟨"christian", SRI⟩ scenarioCStock).qualitativeCheck.passed = false ∧
      "Severe controversies detected" ∈
        ((screenStock ⟨"christian", SRI⟩ scenarioCStock).qualitativeCheck.details.failureReasons.getD []) ∧
      (screenStock ⟨"christian", SRI⟩ scenarioCStock).isCompliant = false ∧
      (screenStock ⟨"christian", SRI⟩ scenarioCStock).complianceScore = some 67) := by
  rintro ⟨hl, -⟩
  have : (checkQualitativeCompliance SRI scenarioCStock).passed = false := hl
  rw [scenarioC_qualitative_passed] at this
  exact absurd this (by decide)

/-- C7 amended: under the SRI engine the Scenario C stock passes the
qualitative check (SRI sets neither controversy flag; no failure reasons
are recorded); it is the sector check that fails (Healthcare is in no
preferred tag's member list), so overall compliance is false and the
score is 67. -/
theorem scenarioC_amended :
    construct "christian" "SRI" = Except.ok ⟨"christian", SRI⟩ ∧
    (screenStock ⟨"christian", SRI⟩ scenarioCStock).qualitativeCheck.passed = true ∧
    (screenStock ⟨"christian", SRI⟩ scenarioCStock).qualitativeCheck.details.failureReasons = none ∧
    (screenStock ⟨"christian", SRI⟩ scenarioCStock).sectorCheck.passed = false ∧
    (screenStock ⟨"christian", SRI⟩ scenarioCStock).quantitativeCheck.passed = true ∧
    (screenStock ⟨"christian", SRI⟩ scenarioCStock).isCompliant = false ∧
    (screenStock ⟨"christian", SRI⟩ scenarioCStock).complianceScore = some 67 := by
  refine ⟨rfl, scenarioC_qualitative_passed, by decide, scenarioC_sector_failed,
    scenarioC_quantitative_passed, ?_, ?_⟩
  · show ((checkSectorCompliance SRI scenarioCStock).passed &&
      (checkQuantitativeCompliance SRI scenarioCStock).passed &&
      (checkQualitativeCompliance SRI scenarioCStock).passed) = false
    rw [scenarioC_sector_failed]
    simp
  · show some (calculateComplianceScore (checkSectorCompliance SRI scenarioCStock)
      (checkQuantitativeCompliance SRI scenarioCStock)
      (checkQualitativeCompliance SRI scenarioCStock)) = some 67
    rw [calculateComplianceScore_eq, scenarioC_sector_failed, scenarioC_quantitative_passed,
      scenarioC_qualitative_passed]
    norm_num [boolCount, jsRound]

/-- C8: screenStock is a total function of the engine and a structurally
valid stock, and its result is always fully populated: the compliance
score and recommendations are present, the overall flag is the
conjunction of the three sub-checks, the methodology name and screening
type are copied from the engine, and the score is one of 0, 33, 67, 100. -/
theorem screenStock_total (e : EthicalStockScreener) (stock : Stock) :
    (screenStock e stock).complianceScore.isSome = true ∧
    (screenStock e stock).recommendations.isSome = true ∧
    (screenStock e stock).isCompliant =
      ((screenStock e stock).sectorCheck.passed &&
       (screenStock e stock).quantitativeCheck.passed &&
       (screenStock e stock).qualitativeCheck.passed) ∧
    (screenStock e stock).methodology = e.methodology.name ∧
    (screenStock e stock).screeningType = e.screeningType ∧
    ∃ n, (screenStock e stock).complianceScore = some n ∧ n ∈ ([0, 33, 67, 100] : List ℤ) := by
  refine ⟨rfl, rfl, rfl, rfl, rfl,
    calculateComplianceScore (checkSectorCompliance e.methodology stock)
      (checkQuantitativeCompliance e.methodology stock)
      (checkQualitativeCompliance e.methodology stock), rfl, ?_⟩
  rw [calculateComplianceScore_eq]
  exact jsRound_count_mem ..

lemma ts_severe_quantitative_passed :
    (checkQuantitativeCompliance AAOIFI severeStock).passed = true := by
  norm_num [checkQuantitativeCompliance, quantEntries, cashEntry, debtEntry, receivablesEntry,
    incomeEntry, esgScoreEntry, esgRiskEntry, carbonEntry, diversityEntry, governanceEntry,
    sinStocksEntry, AAOIFI, severeStock, jsOrQ, jsOrInf, JNum.le]

/-- C9 counterexample: both engines construct successfully for
(islamic, AAOIFI) and resolve the same methodology, yet on a stock with
severe controversies and empty financials the untyped engine fails the
qualitative check (it ignores the criteria flags) while the TypeScript
engine passes it (AAOIFI sets no controversy flag), and the two overall
compliance verdicts disagree. -/
theorem engines_disagree :
    construct "islamic" "AAOIFI" = Except.ok ⟨"islamic", AAOIFI⟩ ∧
    (JS.construct "islamic" "AAOIFI").methodology = AAOIFI ∧
    (JS.screenStock (JS.construct "islamic" "AAOIFI") severeStock).qualitativeCheck.passed = false ∧
    (screenStock ⟨"islamic", AAOIFI⟩ severeStock).qualitativeCheck.passed = true ∧
    (JS.screenStock (JS.construct "islamic" "AAOIFI") severeStock).isCompliant = false ∧
    (screenStock ⟨"islamic", AAOIFI⟩ severeStock).isCompliant = true := by
  refine ⟨rfl, by decide, by decide, by decide, by decide, ?_⟩
  show ((checkSectorCompliance AAOIFI severeStock).passed &&
    (checkQuantitativeCompliance AAOIFI severeStock).passed &&
    (checkQualitativeCompliance AAOIFI severeStock).passed) = true
  rw [ts_severe_quantitative_passed]
  decide

lemma sector_checks_agree (m : Methodology) (stock : Stock) :
    (JS.checkSectorCompliance m stock).passed = (checkSectorCompliance m stock).passed := rfl

/-- C9 amended: the two engines are not behaviourally equivalent on the
quantitative and qualitative sub-checks (see the counterexample), but for
every (screeningType, methodologyKey) pair on which the TypeScript engine
constructs successfully and both resolve the same methodology record,
their sector sub-check passed flags agree on every stock. -/
theorem engines_agree_on_sector (st key : String) (e : EthicalStockScreener) (stock : Stock)
    (h : construct st key = Except.ok e)
    (hm : (JS.construct st key).methodology = e.methodology) :
    (JS.screenStock (JS.construct st key) stock).sectorCheck.passed =
      (screenStock e stock).sectorCheck.passed := by
  show (JS.checkSectorCompliance (JS.construct st key).methodology stock).passed =
    (checkSectorCompliance e.methodology stock).passed
  rw [hm]
  exact sector_checks_agree e.methodology stock

/-- C9 witness: the sector agreement applied at (islamic, AAOIFI) on the
severe-controversy stock. -/
theorem engines_agree_on_sector_witness :
    (JS.screenStock (JS.construct "islamic" "AAOIFI") severeStock).sectorCheck.passed =
      (screenStock ⟨"islamic", AAOIFI⟩ severeStock).sectorCheck.passed :=
  engines_agree_on_sector "islamic" "AAOIFI" ⟨"islamic", AAOIFI⟩ severeStock rfl (by decide)

end Screener
